import Mathlib

/-!
Verification of the user-input components of `src/app/click-me.component.ts`.

Each Angular component is embedded as pure state-transition functions: a
handler that in TypeScript mutates a field of `this` becomes a Lean function
taking the field's old value and returning its new value.  Strings in the
source are modelled as Lean `String`s, arrays as `List String`.
-/

/-- JavaScript truthiness of a string: falsy exactly when it is `""`.
Models the condition `if (newHero)` in the source. -/
def strTruthy (s : String) : Bool := s != ""

namespace ClickMeComponent

/-- Initial value of the `clickMessage` field: `clickMessage = ''`. -/
def clickMessageInit : String := ""

/-- `onClickMe() { this.clickMessage = 'You are my hero!'; }` —
state transition on the `clickMessage` field.  The handler takes no
input parameter; the single argument here is the prior field value. -/
def onClickMe (_clickMessage : String) : String := "You are my hero!"

end ClickMeComponent

namespace KeyUpComponent_v1

/-- Initial value of the `values` field: `values = ''`. -/
def valuesInit : String := ""

/-- `onKey(event) { this.values += event.target.value + ' | '; }` —
the first argument is `event.target.value` (the current contents of the
input box), the second the prior `values` field. -/
def onKey (eventTargetValue : String) (values : String) : String :=
  values ++ (eventTargetValue ++ " | ")

end KeyUpComponent_v1

namespace KeyUpComponent_v2

/-- Initial value of the `values` field: `values = ''`. -/
def valuesInit : String := ""

/-- `onKey(value: string) { this.values += value + ' | '; }` —
the value is passed from the template reference variable `box.value`. -/
def onKey (value : String) (values : String) : String :=
  values ++ (value ++ " | ")

end KeyUpComponent_v2

namespace KeyUpComponent_v3

/-- Initial value of the `value` field: `value = ''`. -/
def valueInit : String := ""

/-- `onEnter(value: string) { this.value = value; }` —
the second argument is the prior `value` field, which is overwritten. -/
def onEnter (value : String) (_this_value : String) : String := value

/-- The template binding `(keyup.enter)="onEnter(box.value)"`: Angular's
`keyup.enter` pseudo-event invokes `onEnter` only when the released key is
Enter; every other keystroke leaves the component untouched. -/
def keyup (key : String) (boxValue : String) (this_value : String) : String :=
  if key == "Enter" then onEnter boxValue this_value else this_value

end KeyUpComponent_v3

namespace KeyUpComponent_v4

/-- Initial value of the `value` field: `value = ''`. -/
def valueInit : String := ""

/-- `update(value: string) { this.value = value; }` —
the second argument is the prior `value` field, which is overwritten. -/
def update (value : String) (_this_value : String) : String := value

/-- The template binding `(blur)="update(box.value)"`: when focus leaves
the input box, `update` runs on the current box content unconditionally. -/
def onBlur (boxValue : String) (this_value : String) : String :=
  update boxValue this_value

end KeyUpComponent_v4

namespace LittleTourComponent

/-- Initial `heroes` list: `heroes = ['Windstorm', 'Bombasto', 'Magneta', 'Tornado']`. -/
def heroesInit : List String := ["Windstorm", "Bombasto", "Magneta", "Tornado"]

/-- `addHero(newHero) { if (newHero) { this.heroes.push(newHero); } }` —
push appends at the end; a falsy (empty) string is silently ignored. -/
def addHero (newHero : String) (heroes : List String) : List String :=
  if strTruthy newHero then heroes ++ [newHero] else heroes

end LittleTourComponent

/-- A string every character of which is whitespace: exactly the strings
that trim to the empty string. -/
def whitespaceOnly (s : String) : Bool := s.toList.all Char.isWhitespace

/-! ## Basic lemmas -/

theorem strTruthy_iff (s : String) : strTruthy s = true ↔ s ≠ "" := by
  simp [strTruthy]

theorem addHero_empty (heroes : List String) :
    LittleTourComponent.addHero "" heroes = heroes := rfl

theorem addHero_ne (s : String) (hs : s ≠ "") (heroes : List String) :
    LittleTourComponent.addHero s heroes = heroes ++ [s] := by
  simp [LittleTourComponent.addHero, strTruthy, hs]

/-! ## Claims -/

/-- C1: `addHero ""` leaves the heroes list unchanged, and `addHero "Newt"`
on the initial list `["Windstorm","Bombasto","Magneta","Tornado"]` appends
`"Newt"` at the end preserving prior order. -/
theorem addHero_empty_and_newt :
    LittleTourComponent.addHero "" LittleTourComponent.heroesInit
        = LittleTourComponent.heroesInit
      ∧ LittleTourComponent.addHero "Newt" LittleTourComponent.heroesInit
        = ["Windstorm", "Bombasto", "Magneta", "Tornado", "Newt"] := by
  constructor <;> rfl

/-- C2 counterexample: the whitespace-only string `"   "` trims to `""`,
yet `addHero "   "` does change the state — the code tests JavaScript
truthiness, not the trimmed string, so `"   "` is appended. -/
theorem addHero_whitespace_changes_state :
    whitespaceOnly "   " = true
      ∧ LittleTourComponent.addHero "   " [] = ["   "]
      ∧ ["   "] ≠ ([] : List String) := by
  refine ⟨by decide, rfl, by decide⟩

/-- C2 (amended): if the input string is exactly `""`, `addHero` produces
no state change; the code does not trim, so only the literal empty string
is rejected. -/
theorem addHero_noop_iff_empty_string (s : String) (heroes : List String)
    (h : s = "") : LittleTourComponent.addHero s heroes = heroes := by
  subst h; rfl

/-- C2 witness: the amended claim at the concrete input `""`. -/
theorem addHero_noop_iff_empty_string_witness :
    LittleTourComponent.addHero "" ["Windstorm"] = ["Windstorm"] :=
  addHero_noop_iff_empty_string "" ["Windstorm"] rfl

/-- C3 counterexample: `onKey` is not idempotent — applying it twice with
the same value `"a"` from the initial empty state appends twice. -/
theorem onKey_not_idempotent :
    KeyUpComponent_v1.onKey "a" (KeyUpComponent_v1.onKey "a" "")
      ≠ KeyUpComponent_v1.onKey "a" "" := by
  decide

/-- C3 (amended): `onClickMe`, `onEnter`, and `update` are idempotent with
respect to repeated identical triggers, and `addHero` is idempotent on the
empty string; `onKey` and `addHero` with a non-empty value are not — each
repeated call appends another copy. -/
theorem handlers_idempotent (st v : String) (heroes : List String) :
    ClickMeComponent.onClickMe (ClickMeComponent.onClickMe st)
        = ClickMeComponent.onClickMe st
      ∧ KeyUpComponent_v3.onEnter v (KeyUpComponent_v3.onEnter v st)
        = KeyUpComponent_v3.onEnter v st
      ∧ KeyUpComponent_v4.update v (KeyUpComponent_v4.update v st)
        = KeyUpComponent_v4.update v st
      ∧ LittleTourComponent.addHero "" (LittleTourComponent.addHero "" heroes)
        = LittleTourComponent.addHero "" heroes := by
  refine ⟨rfl, rfl, rfl, rfl⟩

/-- C4: starting from the initial empty `values`, the keystroke sequence
with box contents `"a"`, `"ab"`, `"abc"` leaves the accumulator equal to
`"a | ab | abc | "`, in both the v1 and v2 components. -/
theorem onKey_sequence_abc :
    KeyUpComponent_v1.onKey "abc"
        (KeyUpComponent_v1.onKey "ab"
          (KeyUpComponent_v1.onKey "a" KeyUpComponent_v1.valuesInit))
        = "a | ab | abc | "
      ∧ KeyUpComponent_v2.onKey "abc"
        (KeyUpComponent_v2.onKey "ab"
          (KeyUpComponent_v2.onKey "a" KeyUpComponent_v2.valuesInit))
        = "a | ab | abc | " := by
  constructor <;> rfl

/-- C5: `onClickMe` sets `clickMessage` to the fixed literal
`"You are my hero!"` regardless of the prior value. -/
theorem onClickMe_sets_fixed_message (prior : String) :
    ClickMeComponent.onClickMe prior = "You are my hero!" := rfl

/-- C6: under the `keyup.enter` binding, a non-Enter key leaves the
committed `value` unchanged, while Enter with box content `"X"` sets
`value` to `"X"`. -/
theorem keyup_enter_filter (key box st : String) :
    (key ≠ "Enter" → KeyUpComponent_v3.keyup key box st = st)
      ∧ KeyUpComponent_v3.keyup "Enter" "X" st = "X" := by
  constructor
  · intro hk
    simp [KeyUpComponent_v3.keyup, hk]
  · rfl

/-- C6 witness: the letter key `"a"` does not change the state `""`, and
Enter with `"X"` commits `"X"`. -/
theorem keyup_enter_filter_witness :
    KeyUpComponent_v3.keyup "a" "X" "" = ""
      ∧ KeyUpComponent_v3.keyup "Enter" "X" "" = "X" :=
  ⟨(keyup_enter_filter "a" "X" "").1 (by decide),
   (keyup_enter_filter "a" "X" "").2⟩

/-- C7: when focus leaves the input box whose content is `"Y"`, the blur
binding commits `"Y"` to `value`, regardless of the prior state. -/
theorem blur_commits_value (st : String) :
    KeyUpComponent_v4.onBlur "Y" st = "Y" := rfl

/-- C8: for every non-empty string `s`, `n` successive calls of
`addHero s` grow the heroes list by exactly `n` copies of `s` appended at
the end, with no deduplication. -/
theorem addHero_iterate (s : String) (hs : s ≠ "")
    (n : ℕ) (heroes : List String) :
    (LittleTourComponent.addHero s)^[n] heroes
      = heroes ++ List.replicate n s := by
  induction n with
  | zero => simp
  | succ n ih =>
      rw [Function.iterate_succ_apply', ih, addHero_ne s hs,
        List.replicate_succ' n s, List.append_assoc]

/-- C8 witness: two successive `addHero "Newt"` calls on the initial list
append two copies of `"Newt"`. -/
theorem addHero_iterate_witness :
    (LittleTourComponent.addHero "Newt")^[2] LittleTourComponent.heroesInit
      = LittleTourComponent.heroesInit ++ List.replicate 2 "Newt" :=
  addHero_iterate "Newt" (by decide) 2 LittleTourComponent.heroesInit

/-- C9: every handler is a total function of its inputs (no exception
path exists in the embedding), and the only rejection behaviour is
`addHero` performing a no-op exactly on the falsy (empty) input. -/
theorem addHero_noop_iff_falsy (s : String) (heroes : List String) :
    LittleTourComponent.addHero s heroes = heroes ↔ s = "" := by
  constructor
  · intro h
    by_contra hs
    rw [addHero_ne s hs] at h
    simpa using congrArg List.length h
  · intro h
    subst h; rfl

/-- C10: the accumulator state is append-only: every `onKey` call extends
the previous `values` string by a suffix, and every `addHero` call extends
the previous heroes list by a suffix — existing entries are never removed,
replaced, or reordered. -/
theorem state_append_only (v st : String) (s : String) (heroes : List String) :
    (∃ t, KeyUpComponent_v1.onKey v st = st ++ t)
      ∧ (∃ t, KeyUpComponent_v2.onKey v st = st ++ t)
      ∧ (∃ t, LittleTourComponent.addHero s heroes = heroes ++ t) := by
  refine ⟨⟨v ++ " | ", rfl⟩, ⟨v ++ " | ", rfl⟩, ?_⟩
  by_cases hs : s = ""
  · exact ⟨[], by subst hs; simp [LittleTourComponent.addHero, strTruthy]⟩
  · exact ⟨[s], addHero_ne s hs heroes⟩
